import Mathlib

/-!
Shallow embedding of `src/main.py` — the Telex DAU (daily active users)
monitoring integration.

Conventions of the embedding:
- Wall-clock timestamps (the `timestamp` fields and the "Timestamp: ..."
  line of each rendered block) are elided: they are real-time values with
  no logical content for the properties below.
- Logging calls are elided (they have no effect on the data flow).
- Network nondeterminism is made explicit: a fetch receives an
  *attempt environment* `Nat → AttemptResult` giving, for each attempt
  index, what the HTTP attempt produced (a 200 with a parsed body, an
  HTTP error status, some other status, or a raised exception such as a
  timeout or connection failure).
- `asyncio.gather` is modelled by a slot buffer written by completion
  events in an arbitrary completion order and read back in task order
  once all events have been applied.
- Fallible Python code is modelled with `Option`/`Except`; the
  orchestrator returns a `RunResult` recording whether its top-level
  `except` clause re-raised, the final payload it built, and how many
  delivery attempts it made.
-/

namespace DAUMonitor

/-- The `Settings` configuration class (`src/main.py`, class `Settings`).
`ALLOWED_ORIGINS` and `LOG_LEVEL` are elided (CORS and logging are out of
the data flow). -/
structure Settings where
  REQUEST_TIMEOUT : Nat := 10
  MAX_RETRIES : Nat := 3
  CACHE_TTL : Nat := 300
  deriving DecidableEq

/-- The value a parsed 200-response body associates with the key
`unique_visitors`: the key may be missing, hold a JSON integer, hold an
explicit JSON null, or hold a value that the pydantic coercion to
`Optional[int]` rejects (carrying the exception message that raises). -/
inductive UVField
  | missing
  | jint (n : Int)
  | jnull
  | jother (excMsg : String)
  deriving DecidableEq

/-- Result of `response.json()` on a 200 response: either it raises
(malformed body, carrying the exception message) or it parses, in which
case only the `unique_visitors` field matters downstream. -/
inductive BodyParse
  | malformed (excMsg : String)
  | parsed (uv : UVField)
  deriving DecidableEq

/-- What one HTTP attempt inside `fetch_dau_data` produced:
a 200 response with a body, an error status (>= 400) with its body text,
some other status (2xx other than 200, or 3xx), or an exception raised by
the transport (timeout, connection failure). -/
inductive AttemptResult
  | ok200 (body : BodyParse)
  | httpErr (status : Nat) (text : String)
  | otherStatus (status : Nat)
  | exc (msg : String)
  deriving DecidableEq

/-- The `DAUResponse` pydantic model (`site`, `dau`, `error`; the
`timestamp` field is elided). -/
structure DAUResponse where
  site : String
  dau : Option Int
  error : Option String
  deriving DecidableEq

/-- Observable trace of one `fetch_dau_data` call: the returned value
(`none` models the Python `None` produced by falling off the retry loop),
the backoff delays slept (in order), and how many loop iterations ran. -/
structure FetchTrace where
  outcome : Option DAUResponse
  delays : List Nat
  attempts : Nat
  deriving DecidableEq

/-- The body of the `try` block of one iteration of the retry loop of
`fetch_dau_data`, combined with its `except` handler.
`some r` means the function returns `r` on this attempt; `none` means
control falls through to `asyncio.sleep(2 ** attempt)` and the next
iteration. Mirrors `src/main.py` lines 92-125:
- status 200: build `DAUResponse(dau=data.get("unique_visitors", 0))`;
  note an explicit JSON null is returned by `.get` as-is (the default 0
  applies only to a missing key) and `Optional[int]` accepts `None`,
  so the null case returns `dau=None, error=None`;
- a body that fails to parse, or a `unique_visitors` value rejected by
  the int coercion, raises and lands in the `except` clause;
- status >= 400 returns the error outcome only on the last attempt;
- any other status matches no branch and falls through;
- an exception returns the error outcome only on the last attempt. -/
def tryExcept (site : String) (isLast : Bool) : AttemptResult → Option DAUResponse
  | .ok200 (.parsed .missing) => some ⟨site, some 0, none⟩
  | .ok200 (.parsed (.jint n)) => some ⟨site, some n, none⟩
  | .ok200 (.parsed .jnull) => some ⟨site, none, none⟩
  | .ok200 (.malformed m) => if isLast then some ⟨site, none, some m⟩ else none
  | .ok200 (.parsed (.jother m)) => if isLast then some ⟨site, none, some m⟩ else none
  | .httpErr s t =>
      if isLast then some ⟨site, none, some ("HTTP " ++ toString s ++ ": " ++ t)⟩ else none
  | .otherStatus _ => none
  | .exc m => if isLast then some ⟨site, none, some m⟩ else none

/-- The retry loop `for attempt in range(MAX_RETRIES)` of
`fetch_dau_data`, as a recursion on the remaining iteration count
(`fuel`), carrying the current `attempt` index. When `fuel` runs out the
loop ends and the Python function returns `None`. A non-returning
iteration sleeps `2 ^ attempt` before the next one (also after the final
iteration, mirroring the source where the sleep is unconditional at the
bottom of the loop body). -/
def fetchAux (site : String) (env : Nat → AttemptResult) (maxRetries : Nat) :
    Nat → Nat → FetchTrace
  | _, 0 => ⟨none, [], 0⟩
  | attempt, fuel + 1 =>
      match tryExcept site (attempt == maxRetries - 1) (env attempt) with
      | some r => ⟨some r, [], 1⟩
      | none =>
          let rest := fetchAux site env maxRetries (attempt + 1) fuel
          ⟨rest.outcome, 2 ^ attempt :: rest.delays, rest.attempts + 1⟩

/-- `fetch_dau_data(site, settings)` (`src/main.py` lines 89-127), with
the network behaviour supplied by the attempt environment `env`. -/
def fetch_dau_data (site : String) (settings : Settings)
    (env : Nat → AttemptResult) : FetchTrace :=
  fetchAux site env settings.MAX_RETRIES 0 settings.MAX_RETRIES

/-- One entry of the `settings` list of the trigger payload (pydantic
model `Setting`). -/
structure Setting where
  label : String
  type : String
  required : Bool
  default : String
  deriving DecidableEq

/-- The trigger payload (pydantic model `MonitorPayload`). `return_url`
is kept as a plain string; its `HttpUrl` shape validation belongs to the
out-of-scope trigger surface. -/
structure MonitorPayload where
  channel_id : String
  return_url : String
  settings : List Setting
  deriving DecidableEq

/-- Python `s.startswith(p)`. (Core's `String.startsWith` works on byte
positions and is opaque to kernel reduction, so the embedding uses the
equivalent character-list definition.) -/
def pyStartsWith (s p : String) : Bool := p.data.isPrefixOf s.data

/-- `Setting.validate_label` (`src/main.py` lines 46-51): the label must
start with one of the allowed prefixes. -/
def validate_label (v : String) : Bool :=
  pyStartsWith v "site-" || pyStartsWith v "frontend-" || pyStartsWith v "interval"

/-- `MonitorPayload.validate_settings` (`src/main.py` lines 58-66): at
least one `site-` entry, and no more `frontend-` entries than `site-`
entries. -/
def validate_settings_ok (v : List Setting) : Bool :=
  let site_count := (v.filter (fun s => pyStartsWith s.label "site-")).length
  let frontend_count := (v.filter (fun s => pyStartsWith s.label "frontend-")).length
  decide (site_count ≠ 0) && decide (frontend_count ≤ site_count)

/-- Pydantic validation of a `MonitorPayload`: every settings label
passes `validate_label` and the list passes `validate_settings`. -/
def validPayload (p : MonitorPayload) : Bool :=
  p.settings.all (fun s => validate_label s.label) && validate_settings_ok p.settings

/-- Sites extraction (`src/main.py` line 135): defaults of the settings
whose label starts with `site-`, in list order. -/
def sitesOf (p : MonitorPayload) : List String :=
  (p.settings.filter (fun s => pyStartsWith s.label "site-")).map (fun s => s.default)

/-- Frontend URL extraction (`src/main.py` lines 139-143): the default of
the first settings entry whose label is exactly `frontend-site`, else
the string `N/A`. -/
def frontendUrlOf (p : MonitorPayload) : String :=
  ((p.settings.find? (fun s => s.label == "frontend-site")).map (fun s => s.default)).getD "N/A"

/-- Slot buffer written by completion events: each event `i` stores the
value of task `i` into slot `i`; events are applied in completion order
(the list), and the buffer is then read at slot `j`. -/
def runCompletions {α : Type} (task : Nat → α) :
    List Nat → (Nat → Option α) → Nat → Option α
  | [], buf, j => buf j
  | i :: rest, buf, j =>
      runCompletions task rest (fun k => if k = i then some (task i) else buf k) j

/-- `asyncio.gather` over the (pure) per-task values `vals`, with the
tasks completing in the arbitrary order `order`: every completion writes
its own slot, and after the join the slots are read back in task order.
A slot that no event wrote stays empty; `Option.join` collapses that
(unreachable under a completion order covering every index, the
hypothesis of the theorems below) with a task's own `None` value. -/
def asyncio_gather {α : Type} (vals : List (Option α)) (order : List Nat) :
    List (Option α) :=
  (List.range vals.length).map fun i =>
    (runCompletions (fun j => vals.getD j none) order (fun _ => none) i).join

/-- String rendering of an optional string, as a Python f-string renders
it: `None` for the absent case. -/
def optStr : Option String → String
  | none => "None"
  | some s => s

/-- One message block of the formatting loop (`src/main.py` lines
157-170), with the "Timestamp: ..." line elided. The success branch is
taken exactly when `result.dau is not None`. -/
def renderBlock (frontend_url : String) (r : DAUResponse) : String :=
  match r.dau with
  | some n =>
      "Site Monitored: " ++ frontend_url ++ "\nBackend URL: " ++ r.site ++
        "\nDaily Active Users: " ++ toString n
  | none =>
      "Site: " ++ r.site ++ "\nError: " ++ optStr r.error ++
        "\nFrontend URL: " ++ frontend_url

/-- The status computation of `src/main.py` line 175. -/
def computeStatus (results : List DAUResponse) : String :=
  if results.all (fun r => r.dau.isSome) then "success" else "error"

/-- Walking the gathered results: the formatting loop dereferences
`result.dau` on each element, so the first Python `None` in the list
raises `AttributeError` inside the `try` block; otherwise the list of
actual `DAUResponse` values is obtained. -/
def collectResults : List (Option DAUResponse) → Except String (List DAUResponse)
  | [] => .ok []
  | none :: _ => .error "AttributeError: NoneType object has no attribute dau"
  | some r :: rest =>
      match collectResults rest with
      | .error m => .error m
      | .ok rs => .ok (r :: rs)

/-- The `final_payload` dict of `src/main.py` lines 179-185 (the
`timestamp` entry is elided). -/
structure FinalPayload where
  message : String
  username : String
  event_name : String
  status : String
  deriving DecidableEq

/-- Observable result of one `monitor_dau_task` run: the exception
re-raised by the top-level `except` clause (if any), the final payload
that was built (if the run got that far), how many delivery POSTs were
attempted, and the delivery status code when the POST returned. -/
structure RunResult where
  raised : Option String
  finalPayload : Option FinalPayload
  deliveryAttempts : Nat
  deliveryStatus : Option Nat
  deriving DecidableEq

/-- Is an `Except` value a success? -/
def exceptOk {ε α : Type} : Except ε α → Bool
  | .ok _ => true
  | .error _ => false

/-- The gathered per-site fetch results of one run (`src/main.py`
lines 147-149): one `fetch_dau_data` task per extracted site, joined by
`asyncio.gather` under the completion order `order`. The network
behaviour of each site is supplied by `env`. -/
def fetchResultsOf (p : MonitorPayload) (settings : Settings)
    (env : String → Nat → AttemptResult) (order : List Nat) :
    List (Option DAUResponse) :=
  asyncio_gather
    ((sitesOf p).map (fun site => (fetch_dau_data site settings (env site)).outcome))
    order

/-- `monitor_dau_task` (`src/main.py` lines 129-198). The delivery POST
is modelled by `postResult` (`.ok code` = response with that status,
`.error msg` = the POST raised). The top-level `except` clause logs and
then re-raises: a raised exception ends the run with `raised = some msg`. -/
def monitor_dau_task (p : MonitorPayload) (settings : Settings)
    (env : String → Nat → AttemptResult) (order : List Nat)
    (postResult : Except String Nat) : RunResult :=
  match collectResults (fetchResultsOf p settings env order) with
  | .error m => ⟨some m, none, 0, none⟩
  | .ok rs =>
      let fp : FinalPayload :=
        ⟨String.intercalate "\n\n" (rs.map (renderBlock (frontendUrlOf p))),
          "DAU Monitor", "Daily Active Users Report", computeStatus rs⟩
      match postResult with
      | .error m => ⟨some m, some fp, 1, none⟩
      | .ok code => ⟨none, some fp, 1, some code⟩

/-- The `/tick` endpoint (`src/main.py` lines 253-265): pydantic
validation of the payload happens before the background task is
scheduled; an invalid payload is rejected (`none`) and no orchestration
runs. -/
def tick (p : MonitorPayload) (settings : Settings)
    (env : String → Nat → AttemptResult) (order : List Nat)
    (postResult : Except String Nat) : Option RunResult :=
  if validPayload p then some (monitor_dau_task p settings env order postResult) else none

/-! ## Derived predicates over the embedding -/

/-- Attempt results on which a non-final loop iteration neither returns
nor raises out of the function: everything except a 200 whose body
parses to a value that builds a `DAUResponse`. -/
def skipsWhenNotLast : AttemptResult → Bool
  | .ok200 (.parsed .missing) => false
  | .ok200 (.parsed (.jint _)) => false
  | .ok200 (.parsed .jnull) => false
  | _ => true

/-- Attempt results that the spec counts as a failed attempt: an HTTP
error status, a transport exception, or a body the parse or the int
coercion rejects. (A 2xx status other than 200, or a 3xx, is none of
these: it matches no branch of the loop body at all.) -/
def isTerminalFailure : AttemptResult → Bool
  | .httpErr _ _ => true
  | .exc _ => true
  | .ok200 (.malformed _) => true
  | .ok200 (.parsed (.jother _)) => true
  | _ => false

/-- The `failureReason` message the last attempt produces for a failed
attempt result. -/
def terminalMsg : AttemptResult → String
  | .httpErr s t => "HTTP " ++ toString s ++ ": " ++ t
  | .exc m => m
  | .ok200 (.malformed m) => m
  | .ok200 (.parsed (.jother m)) => m
  | _ => ""

/-- Does a fetch outcome have exactly one of `dau` / `error` set? -/
def exactlyOneSet (r : DAUResponse) : Bool :=
  r.dau.isSome != r.error.isSome

/-! ## Concrete inputs used by witnesses and counterexamples -/

/-- Concrete two-site payload for exercising claim C1: site A succeeds,
site B fails, completions arrive in reverse order. -/
def twoSitePayload : MonitorPayload :=
  ⟨"ch-1", "https://cb.example/hook",
    [⟨"site-1", "text", true, "https://a.example"⟩,
     ⟨"site-2", "text", true, "https://b.example"⟩]⟩

/-- Network environment for the claim C1 witness. -/
def envC1 : String → Nat → AttemptResult := fun site _ =>
  if site = "https://a.example" then .ok200 (.parsed (.jint 10)) else .httpErr 500 "oops"

/-- One-site payload for the claim C3 counterexample. -/
def deliveryFailPayload : MonitorPayload :=
  ⟨"ch-3", "https://cb.example/hook", [⟨"site-1", "text", true, "https://a.example"⟩]⟩

/-- Payload whose settings contain no `site-` entry, for claim C7. -/
def emptyTargetsPayload : MonitorPayload :=
  ⟨"ch-7", "https://cb.example/hook", [⟨"interval", "text", true, "@hourly"⟩]⟩

/-- Payload with two sites and two positionally matching `frontend-`
entries, for claim C8. -/
def frontendPairsPayload : MonitorPayload :=
  ⟨"ch-8", "https://cb.example/hook",
    [⟨"site-1", "text", true, "https://a.example"⟩,
     ⟨"site-2", "text", true, "https://b.example"⟩,
     ⟨"frontend-1", "text", false, "Label One"⟩,
     ⟨"frontend-2", "text", false, "Label Two"⟩]⟩

/-- Attempt environment for the claim C9 witness: a failing first
attempt, then a 200 with a visitor count. -/
def envC9 : Nat → AttemptResult := fun k =>
  if k = 0 then .httpErr 500 "oops" else .ok200 (.parsed (.jint 42))

/-- Payload with one valid site entry and one entry whose label matches
no allowed prefix, for claim C10. -/
def badLabelPayload : MonitorPayload :=
  ⟨"ch-10", "https://cb.example/hook",
    [⟨"site-1", "text", true, "https://a.example"⟩,
     ⟨"metric", "text", true, "dau"⟩]⟩

/-! ## Lemmas about the concurrency model -/

theorem runCompletions_apply {α : Type} (task : Nat → α) :
    ∀ (order : List Nat) (buf : Nat → Option α) (j : Nat),
      runCompletions task order buf j = if j ∈ order then some (task j) else buf j := by
  intro order
  induction order with
  | nil => intro buf j; simp [runCompletions]
  | cons i rest ih =>
      intro buf j
      rw [runCompletions, ih]
      by_cases hj : j ∈ rest
      · simp [hj, List.mem_cons]
      · by_cases hji : j = i
        · subst hji
          simp [hj, List.mem_cons]
        · simp [hj, hji, List.mem_cons]

/-- When the completion order covers every task index, the join of
`asyncio.gather` returns exactly the per-task values in task order:
completion order does not matter. -/
theorem asyncio_gather_eq_of_covering {α : Type} (vals : List (Option α))
    (order : List Nat) (h : ∀ i, i < vals.length → i ∈ order) :
    asyncio_gather vals order = vals := by
  unfold asyncio_gather
  apply List.ext_getElem
  · simp
  · intro i h1 h2
    simp only [List.getElem_map, List.getElem_range]
    rw [runCompletions_apply]
    have hi : i < vals.length := h2
    rw [if_pos (h i hi)]
    simp [Option.join, List.getD_eq_getElem?_getD, List.getElem?_eq_getElem hi]

/-! ## Lemmas about the retry loop -/

theorem tryExcept_eq_none_of_skips (site : String) (r : AttemptResult)
    (h : skipsWhenNotLast r = true) : tryExcept site false r = none := by
  cases r with
  | ok200 b =>
      cases b with
      | malformed m => rfl
      | parsed uv => cases uv <;> simp_all [skipsWhenNotLast, tryExcept]
  | httpErr s t => rfl
  | otherStatus s => rfl
  | exc m => rfl

theorem skips_of_terminal (r : AttemptResult) (h : isTerminalFailure r = true) :
    skipsWhenNotLast r = true := by
  cases r with
  | ok200 b =>
      cases b with
      | malformed m => rfl
      | parsed uv => cases uv <;> simp_all [isTerminalFailure, skipsWhenNotLast]
  | httpErr s t => rfl
  | otherStatus s => simp_all [isTerminalFailure]
  | exc m => rfl

theorem tryExcept_last_of_terminal (site : String) (r : AttemptResult)
    (h : isTerminalFailure r = true) :
    tryExcept site true r = some ⟨site, none, some (terminalMsg r)⟩ := by
  cases r with
  | ok200 b =>
      cases b with
      | malformed m => rfl
      | parsed uv => cases uv <;> simp_all [isTerminalFailure, tryExcept, terminalMsg]
  | httpErr s t => rfl
  | otherStatus s => simp_all [isTerminalFailure]
  | exc m => rfl

theorem fetchAux_skip_step (site : String) (env : Nat → AttemptResult)
    (maxRetries attempt fuel : Nat)
    (hskip : tryExcept site (attempt == maxRetries - 1) (env attempt) = none) :
    fetchAux site env maxRetries attempt (fuel + 1)
      = ⟨(fetchAux site env maxRetries (attempt + 1) fuel).outcome,
         2 ^ attempt :: (fetchAux site env maxRetries (attempt + 1) fuel).delays,
         (fetchAux site env maxRetries (attempt + 1) fuel).attempts + 1⟩ := by
  simp [fetchAux, hskip]

/-- Skipping `j` consecutive non-returning iterations: the trace is the
trace from attempt `attempt + j`, with the `j` backoff delays
`2 ^ attempt, ..., 2 ^ (attempt + j - 1)` prefixed and `j` more
iterations counted. The invariant `attempt + fuel = maxRetries` holds
along the real loop and guarantees the skipped iterations are not the
last one. -/
theorem fetchAux_skips (site : String) (env : Nat → AttemptResult) (maxRetries : Nat) :
    ∀ (j attempt fuel : Nat), attempt + fuel = maxRetries → j < fuel →
      (∀ k, k < j → skipsWhenNotLast (env (attempt + k)) = true) →
      fetchAux site env maxRetries attempt fuel
        = ⟨(fetchAux site env maxRetries (attempt + j) (fuel - j)).outcome,
           (List.range' attempt j).map (fun a => 2 ^ a)
             ++ (fetchAux site env maxRetries (attempt + j) (fuel - j)).delays,
           (fetchAux site env maxRetries (attempt + j) (fuel - j)).attempts + j⟩ := by
  intro j
  induction j with
  | zero => intro attempt fuel _ _ _; simp
  | succ j ih =>
      intro attempt fuel hinv hj hskips
      cases fuel with
      | zero => omega
      | succ fuel =>
          have hne : attempt ≠ maxRetries - 1 := by omega
          have hbeq : (attempt == maxRetries - 1) = false := by
            simp [hne]
          have hnone : tryExcept site (attempt == maxRetries - 1) (env attempt) = none := by
            rw [hbeq]
            exact tryExcept_eq_none_of_skips site (env attempt)
              (by simpa using hskips 0 (Nat.succ_pos j))
          rw [fetchAux_skip_step site env maxRetries attempt fuel hnone]
          have hrec := ih (attempt + 1) fuel (by omega) (by omega)
            (fun k hk => by
              have := hskips (k + 1) (by omega)
              simpa [Nat.add_assoc, Nat.add_comm 1 k] using this)
          rw [hrec]
          have e1 : attempt + 1 + j = attempt + (j + 1) := by omega
          have e2 : fuel - j = fuel + 1 - (j + 1) := by omega
          rw [e1, e2, List.range'_succ]
          simp [Nat.add_assoc, Nat.add_comm 1 j]

/-- If every element of the gathered list is an actual outcome, the
formatting loop raises nothing and sees exactly those outcomes. -/
theorem collectResults_of_isSome :
    ∀ (l : List (Option DAUResponse)), (∀ o, o ∈ l → o.isSome = true) →
      collectResults l = .ok (l.map (fun o => o.getD ⟨"", none, none⟩)) := by
  intro l
  induction l with
  | nil => intro _; rfl
  | cons o rest ih =>
      intro h
      cases o with
      | none => simpa using h none (List.mem_cons_self none rest)
      | some r =>
          rw [List.map_cons, collectResults, ih (fun o ho => h o (List.mem_cons_of_mem _ ho))]
          rfl

/-! ## Claim C1 -/

/-- Claim C1: for every non-empty target list, one orchestration run
produces exactly one report line per target, and the lines appear in the
declared target order regardless of the order in which the concurrent
fetches complete. (The completion order `order` is arbitrary as long as
every fetch completes; each fetch is assumed to produce an outcome —
the attempt sequences under which a fetch produces no outcome at all
are the subject of claim C5.) -/
theorem run_one_line_per_target_in_order
    (p : MonitorPayload) (settings : Settings) (env : String → Nat → AttemptResult)
    (order : List Nat) (postResult : Except String Nat)
    (horder : ∀ i, i < (sitesOf p).length → i ∈ order)
    (hne : sitesOf p ≠ [])
    (hout : ∀ site, site ∈ sitesOf p →
      ((fetch_dau_data site settings (env site)).outcome).isSome = true) :
    ∃ fp, (monitor_dau_task p settings env order postResult).finalPayload = some fp ∧
      fp.message = String.intercalate "\n\n"
        ((sitesOf p).map (fun site =>
          renderBlock (frontendUrlOf p)
            (((fetch_dau_data site settings (env site)).outcome).getD ⟨"", none, none⟩))) := by
  have hvals : fetchResultsOf p settings env order
      = (sitesOf p).map (fun site => (fetch_dau_data site settings (env site)).outcome) := by
    unfold fetchResultsOf
    apply asyncio_gather_eq_of_covering
    simpa using horder
  have hcollect : collectResults (fetchResultsOf p settings env order)
      = .ok (((sitesOf p).map
          (fun site => (fetch_dau_data site settings (env site)).outcome)).map
            (fun o => o.getD ⟨"", none, none⟩)) := by
    rw [hvals]
    apply collectResults_of_isSome
    intro o ho
    obtain ⟨site, hsite, rfl⟩ := List.mem_map.mp ho
    exact hout site hsite
  unfold monitor_dau_task
  rw [hcollect]
  cases postResult with
  | error m =>
      refine ⟨_, rfl, ?_⟩
      simp only [List.map_map]
      rfl
  | ok code =>
      refine ⟨_, rfl, ?_⟩
      simp only [List.map_map]
      rfl

theorem run_one_line_per_target_in_order_witness :
    ((monitor_dau_task twoSitePayload {} envC1 [1, 0] (.ok 200)).finalPayload).map
        FinalPayload.message
      = some ("Site Monitored: N/A\nBackend URL: https://a.example\nDaily Active Users: 10"
          ++ "\n\nSite: https://b.example\nError: HTTP 500: oops\nFrontend URL: N/A") := by
  obtain ⟨fp, h1, h2⟩ :=
    run_one_line_per_target_in_order twoSitePayload {} envC1 [1, 0] (.ok 200)
      (by decide) (by decide) (by decide)
  rw [h1]
  show some fp.message = _
  exact congrArg some (h2.trans (by rfl))

/-! ## Claim C2 -/

/-- Claim C2: for every batch of fetch outcomes, the report's
`overallStatus` (line 175 of the source, embedded as `computeStatus`)
equals "success" if and only if every outcome in the batch has its dau
count present; otherwise it equals "error", with no third status. -/
theorem overallStatus_success_iff (results : List DAUResponse) :
    (computeStatus results = "success" ↔ ∀ r, r ∈ results → r.dau.isSome = true) ∧
      (computeStatus results = "success" ∨ computeStatus results = "error") := by
  unfold computeStatus
  by_cases h : results.all (fun r => r.dau.isSome) = true
  · rw [if_pos h]
    refine ⟨⟨fun _ r hr => ?_, fun _ => rfl⟩, Or.inl rfl⟩
    simpa using List.all_eq_true.mp h r hr
  · rw [if_neg h]
    refine ⟨⟨fun heq => absurd heq (by decide), fun hall => ?_⟩, Or.inr rfl⟩
    exact absurd (List.all_eq_true.mpr (fun r hr => by simpa using hall r hr)) h

/-! ## Claim C3 -/

/-- Claim C3 counterexample: a concrete run in which the delivery POST
raises. The top-level handler catches and logs the exception but then
re-raises it (line 198 of the source is a bare `raise` after the
`logger.exception` call), so the run does not terminate without
re-raising: `raised` carries the exception instead of being `none`. -/
theorem run_reraises_cex :
    (monitor_dau_task deliveryFailPayload {} (fun _ _ => .ok200 (.parsed (.jint 3)))
        [0] (.error "httpx.ConnectError: delivery refused")).raised
      = some "httpx.ConnectError: delivery refused" := by
  rfl

/-- Claim C3 as amended: every exception raised during a run (fetch
aggregation, formatting, or delivery) is caught by the orchestrator's
top-level handler, which logs it and then re-raises it to the
background-task runner; a run re-raises nothing exactly when every
gathered result materialised into an outcome and the delivery POST did
not raise. -/
theorem run_catches_logs_and_reraises
    (p : MonitorPayload) (settings : Settings) (env : String → Nat → AttemptResult)
    (order : List Nat) (postResult : Except String Nat) :
    (monitor_dau_task p settings env order postResult).raised = none ↔
      exceptOk (collectResults (fetchResultsOf p settings env order)) = true ∧
        exceptOk postResult = true := by
  unfold monitor_dau_task
  cases h : collectResults (fetchResultsOf p settings env order) with
  | error m => simp [exceptOk]
  | ok rs => cases postResult <;> simp [exceptOk]

/-! ## Claim C4 -/

/-- Claim C4: for a site whose fetch fails on every attempt, the fetcher
makes exactly `MAX_RETRIES` attempts (default 3), sleeping `2 ^ attempt`
time-units after each failed attempt (attempt index starting at 0, so
delays 1, 2, 4, ...), and sleeps nothing after the final attempt. -/
theorem retry_count_and_backoff
    (site : String) (settings : Settings) (env : Nat → AttemptResult)
    (hpos : 0 < settings.MAX_RETRIES)
    (hfail : ∀ i, i < settings.MAX_RETRIES → isTerminalFailure (env i) = true) :
    (fetch_dau_data site settings env).attempts = settings.MAX_RETRIES ∧
      (fetch_dau_data site settings env).delays
        = (List.range (settings.MAX_RETRIES - 1)).map (fun a => 2 ^ a) := by
  set mr := settings.MAX_RETRIES with hmr
  unfold fetch_dau_data
  rw [fetchAux_skips site env mr (mr - 1) 0 mr (by omega) (by omega)
    (fun k hk => skips_of_terminal _ (hfail (0 + k) (by omega)))]
  have e1 : 0 + (mr - 1) = mr - 1 := by omega
  have e2 : mr - (mr - 1) = 1 := by omega
  rw [e1, e2]
  have hstep : fetchAux site env mr (mr - 1) 1
      = ⟨some ⟨site, none, some (terminalMsg (env (mr - 1)))⟩, [], 1⟩ := by
    have hlast : (mr - 1 == mr - 1) = true := by simp
    rw [fetchAux, hlast, tryExcept_last_of_terminal site _ (hfail (mr - 1) (by omega))]
  rw [hstep]
  refine ⟨?_, ?_⟩
  · show 1 + (mr - 1) = mr
    omega
  · show (List.range' 0 (mr - 1)).map (fun a => 2 ^ a) ++ [] = _
    rw [List.append_nil, List.range_eq_range']

theorem retry_count_and_backoff_witness :
    (fetch_dau_data "https://a.example" {} (fun _ => .exc "timeout")).attempts = 3 ∧
      (fetch_dau_data "https://a.example" {} (fun _ => .exc "timeout")).delays = [1, 2] := by
  have h := retry_count_and_backoff "https://a.example" {} (fun _ => .exc "timeout")
    (by decide) (fun i _ => rfl)
  exact ⟨h.1, h.2.trans (by rfl)⟩

/-! ## Claim C5 -/

/-- Claim C5 (code bug): a site answering a status that is neither 200
nor at least 400 — for example 204 No Content — on every attempt matches
no branch of the retry loop body. After the retries are exhausted the
function falls off the loop and returns Python `None` instead of a
`FetchOutcome` with `failureReason` set (contradicting its own declared
return type `DAUResponse`), and it even sleeps the backoff delay after
the final attempt. -/
theorem fetch_falls_off_loop_on_204 :
    (fetch_dau_data "https://a.example" {} (fun _ => .otherStatus 204)).outcome = none ∧
      (fetch_dau_data "https://a.example" {} (fun _ => .otherStatus 204)).attempts = 3 ∧
      (fetch_dau_data "https://a.example" {} (fun _ => .otherStatus 204)).delays = [1, 2, 4] :=
  ⟨rfl, rfl, rfl⟩

/-! ## Claim C6 -/

/-- Claim C6 (code bug): a 200 response whose parsed body maps
`unique_visitors` to an explicit null yields an outcome with `dau = None`
and `error = None` — both absent — because `data.get("unique_visitors", 0)`
only substitutes the default for a missing key, and `Optional[int]`
accepts `None`. The claimed exactly-one-set invariant fails on this
outcome. -/
theorem outcome_invariant_violated_on_null :
    (fetch_dau_data "https://a.example" {} (fun _ => .ok200 (.parsed .jnull))).outcome
        = some ⟨"https://a.example", none, none⟩ ∧
      exactlyOneSet ⟨"https://a.example", none, none⟩ = false :=
  ⟨rfl, rfl⟩

/-! ## Claim C7 -/

/-- Claim C7 counterexample: with zero targets the run neither reports
`overallStatus = error` nor suppresses delivery — the report is empty
with status "success" (the status conjunction over an empty batch is
vacuously true) and the POST to the callback is still attempted. -/
theorem empty_targets_cex :
    (monitor_dau_task emptyTargetsPayload {} (fun _ _ => .exc "unused") [] (.ok 200)).finalPayload
        = some ⟨"", "DAU Monitor", "Daily Active Users Report", "success"⟩ ∧
      (monitor_dau_task emptyTargetsPayload {} (fun _ _ => .exc "unused") [] (.ok 200)).deliveryAttempts
        = 1 :=
  ⟨rfl, rfl⟩

/-- Claim C7 as amended: when the targets resolve to zero fetcher
invocations, the run completes with an empty report whose
`overallStatus` is "success" (not "error") and delivery is still
attempted once; in general delivery is attempted exactly once whenever
every gathered result materialised into an outcome (even if every fetch
failed), and is skipped only when the formatting step raises. -/
theorem delivery_attempted_iff_formatting_succeeds
    (p : MonitorPayload) (settings : Settings) (env : String → Nat → AttemptResult)
    (order : List Nat) (postResult : Except String Nat) :
    (sitesOf p = [] →
        (monitor_dau_task p settings env order postResult).finalPayload
          = some ⟨"", "DAU Monitor", "Daily Active Users Report", "success"⟩) ∧
      (monitor_dau_task p settings env order postResult).deliveryAttempts
        = (if exceptOk (collectResults (fetchResultsOf p settings env order)) = true
            then 1 else 0) := by
  constructor
  · intro hempty
    have hfr : fetchResultsOf p settings env order = [] := by
      simp [fetchResultsOf, asyncio_gather, hempty]
    unfold monitor_dau_task
    rw [hfr]
    cases postResult <;> rfl
  · unfold monitor_dau_task
    cases h : collectResults (fetchResultsOf p settings env order) with
    | error m => simp [exceptOk]
    | ok rs => cases postResult <;> simp [exceptOk]

theorem delivery_attempted_iff_formatting_succeeds_witness :
    (monitor_dau_task emptyTargetsPayload {} (fun _ _ => .exc "unused") []
        (.error "post failed")).finalPayload
      = some ⟨"", "DAU Monitor", "Daily Active Users Report", "success"⟩ ∧
      (monitor_dau_task emptyTargetsPayload {} (fun _ _ => .exc "unused") []
        (.error "post failed")).deliveryAttempts = 1 := by
  have h := delivery_attempted_iff_formatting_succeeds emptyTargetsPayload {}
    (fun _ _ => .exc "unused") [] (.error "post failed")
  exact ⟨h.1 (by rfl), h.2.trans (by rfl)⟩

/-! ## Claim C8 -/

/-- Claim C8 counterexample: in a payload with two `site-` entries and
two `frontend-` entries, the claim says the first `frontend-` default
("Label One") labels the first site and the second ("Label Two") the
second. Instead the orchestrator looks up the single first entry whose
label is exactly `frontend-site` — here there is none — and every block
carries "N/A": no positional zipping happens. -/
theorem positional_labels_cex :
    frontendUrlOf frontendPairsPayload = "N/A" ∧
      (monitor_dau_task frontendPairsPayload {} (fun _ _ => .ok200 (.parsed (.jint 7)))
          [0, 1] (.ok 200)).finalPayload
        = some ⟨"Site Monitored: N/A\nBackend URL: https://a.example\nDaily Active Users: 7"
            ++ "\n\nSite Monitored: N/A\nBackend URL: https://b.example\nDaily Active Users: 7",
            "DAU Monitor", "Daily Active Users Report", "success"⟩ :=
  ⟨rfl, rfl⟩

/-- Claim C8 as amended: every rendered block carries one shared display
label — the default of the first settings entry whose label is exactly
`frontend-site`, or "N/A" when no such entry exists; `frontend-` entries
with any other label are ignored and no positional matching occurs. -/
theorem shared_frontend_label
    (p : MonitorPayload) (settings : Settings) (env : String → Nat → AttemptResult)
    (order : List Nat) (postResult : Except String Nat) (rs : List DAUResponse)
    (hok : collectResults (fetchResultsOf p settings env order) = .ok rs) :
    (monitor_dau_task p settings env order postResult).finalPayload
        = some ⟨String.intercalate "\n\n" (rs.map (renderBlock (frontendUrlOf p))),
            "DAU Monitor", "Daily Active Users Report", computeStatus rs⟩ ∧
      ((∀ s, s ∈ p.settings → s.label ≠ "frontend-site") → frontendUrlOf p = "N/A") := by
  constructor
  · unfold monitor_dau_task
    rw [hok]
    cases postResult <;> rfl
  · intro h
    have hfind : p.settings.find? (fun s => s.label == "frontend-site") = none := by
      rw [List.find?_eq_none]
      intro s hs
      simpa using h s hs
    unfold frontendUrlOf
    rw [hfind]
    rfl

theorem shared_frontend_label_witness :
    (monitor_dau_task frontendPairsPayload {} (fun _ _ => .ok200 (.parsed (.jint 7)))
        [1, 0] (.ok 404)).finalPayload
      = some ⟨String.intercalate "\n\n"
          ([⟨"https://a.example", some 7, none⟩,
            ⟨"https://b.example", some 7, none⟩].map
              (renderBlock (frontendUrlOf frontendPairsPayload))),
          "DAU Monitor", "Daily Active Users Report",
          computeStatus [⟨"https://a.example", some 7, none⟩,
            ⟨"https://b.example", some 7, none⟩]⟩ :=
  (shared_frontend_label frontendPairsPayload {} (fun _ _ => .ok200 (.parsed (.jint 7)))
    [1, 0] (.ok 404)
    [⟨"https://a.example", some 7, none⟩, ⟨"https://b.example", some 7, none⟩]
    (by rfl)).1

/-! ## Claim C9 -/

/-- Claim C9: a fetch attempt answered with HTTP 200 makes the fetcher
return a success outcome whose value is the `unique_visitors` field of
the parsed body, defaulting to 0 when the field is absent (absence is
not a failure). The attempt may sit at any position `j` of the retry
sequence, as long as the earlier attempts did not themselves return. -/
theorem http200_success_value
    (site : String) (settings : Settings) (env : Nat → AttemptResult)
    (j : Nat) (n : Int)
    (hj : j < settings.MAX_RETRIES)
    (hskip : ∀ k, k < j → skipsWhenNotLast (env k) = true) :
    (env j = .ok200 (.parsed (.jint n)) →
        (fetch_dau_data site settings env).outcome = some ⟨site, some n, none⟩) ∧
      (env j = .ok200 (.parsed .missing) →
        (fetch_dau_data site settings env).outcome = some ⟨site, some 0, none⟩) := by
  set mr := settings.MAX_RETRIES with hmr
  unfold fetch_dau_data
  rw [fetchAux_skips site env mr j 0 mr (by omega) hj
    (fun k hk => by simpa using hskip k hk)]
  rw [Nat.zero_add]
  have e : mr - j = (mr - j - 1) + 1 := by omega
  rw [e]
  constructor
  · intro he
    simp [fetchAux, he, tryExcept]
  · intro he
    simp [fetchAux, he, tryExcept]

theorem http200_success_value_witness :
    (fetch_dau_data "https://a.example" {} envC9).outcome
        = some ⟨"https://a.example", some 42, none⟩ ∧
      (fetch_dau_data "https://b.example" {}
          (fun _ => .ok200 (.parsed .missing))).outcome
        = some ⟨"https://b.example", some 0, none⟩ := by
  constructor
  · exact (http200_success_value "https://a.example" {} envC9 1 42 (by decide)
      (fun k hk => by
        have hk0 : k = 0 := by omega
        subst hk0
        rfl)).1 rfl
  · exact (http200_success_value "https://b.example" {}
      (fun _ => .ok200 (.parsed .missing)) 0 0 (by decide)
      (fun k hk => absurd hk (Nat.not_lt_zero k))).2 rfl

/-! ## Claim C10 -/

/-- Claim C10: if any settings entry has a label that starts with none
of `site-`, `frontend-`, `interval`, pydantic validation rejects the
whole request at the `/tick` boundary and no orchestration runs — even
when the site-count and frontend-count invariants are satisfied (the
witness's payload satisfies them). -/
theorem bad_label_rejected
    (p : MonitorPayload) (settings : Settings) (env : String → Nat → AttemptResult)
    (order : List Nat) (postResult : Except String Nat)
    (hbad : ∃ s, s ∈ p.settings ∧ validate_label s.label = false) :
    tick p settings env order postResult = none := by
  obtain ⟨s, hs, hlabel⟩ := hbad
  have hall : p.settings.all (fun t => validate_label t.label) = false :=
    List.all_eq_false.mpr ⟨s, hs, by simp [hlabel]⟩
  simp [tick, validPayload, hall]

theorem bad_label_rejected_witness :
    validate_settings_ok badLabelPayload.settings = true ∧
      tick badLabelPayload {} (fun _ _ => .exc "unused") [] (.ok 200) = none := by
  refine ⟨by rfl, ?_⟩
  exact bad_label_rejected badLabelPayload {} (fun _ _ => .exc "unused") [] (.ok 200)
    ⟨⟨"metric", "text", true, "dau"⟩, by decide, by rfl⟩

end DAUMonitor
